import Mathlib

/-!
Verification development for the core model classes of streamdeck-ui-node:
the Image animation clock (src/lib/image.js), the Image load pipeline's
source-resolution stage, the Key interaction state machine (src/lib/key.js),
the StreamDeck- and Page-level hold propagation (src/lib/streamdeck.js and
src/lib/page.js), the wildcard pair set backing Key.isPressed
(src/lib/wild-array-valued-set.js) and Page.attachKey / Page.detachKey.
Each definition is a shallow embedding of the JavaScript it is named after;
line references point into the source files.
-/

namespace SDUI

/-! ## Image animation clock (src/lib/image.js, Image.nextFrame) -/

/-- Animation state of an Image: the private fields read and written by
`Image.nextFrame` — `_frameCount`, `_loopCount`, the number of frames that have
finished loading (`_frames.length`), `_currentFrame`, `_currentLoop`, the
`_animate` flag and the `_destroyed` flag. -/
structure ImageAnim where
  frameCount : Nat
  loopCount : Nat
  framesLoaded : Nat
  currentFrame : Nat
  currentLoop : Nat
  animate : Bool
  destroyed : Bool
deriving DecidableEq, Repr

/-- Commit step at the end of `Image.nextFrame` (image.js lines 577-597): when the
target frame has already loaded (`this._frames.length > nextFrame`) the frame and
loop counters are updated at once; otherwise the update is deferred to a
`frameLoaded` listener (lines 599-630) and nothing changes synchronously. -/
def ImageAnim.commitFrame (s : ImageAnim) (nf nl : Nat) : ImageAnim :=
  if nf < s.framesLoaded then { s with currentFrame := nf, currentLoop := nl } else s

/-- Translation of `Image.nextFrame` (image.js lines 549-631): no-op when destroyed
or when `frameCount <= 1`; otherwise compute `nextFrame = currentFrame + 1`; past
the last frame, halt (clear `_animate`) when `loopCount > 0` and
`currentLoop >= loopCount`, else wrap to frame 0 and increment the loop counter. -/
def Image.nextFrame (s : ImageAnim) : ImageAnim :=
  if s.destroyed then s
  else if s.frameCount ≤ 1 then s
  else if s.frameCount ≤ s.currentFrame + 1 then
    if 0 < s.loopCount ∧ s.loopCount ≤ s.currentLoop then
      { s with animate := false }
    else
      s.commitFrame 0 (s.currentLoop + 1)
  else
    s.commitFrame (s.currentFrame + 1) s.currentLoop

/-- Fully loaded animated Image as it stands right after `loadImage` completed and
`startAnimation` ran: every frame loaded, positioned at frame 0 of loop 0. -/
def ImageAnim.loaded (F N : Nat) : ImageAnim :=
  { frameCount := F, loopCount := N, framesLoaded := F,
    currentFrame := 0, currentLoop := 0, animate := true, destroyed := false }

/-- Halted terminal state of the animation: held at the last frame of loop N with
the `_animate` flag cleared. -/
def ImageAnim.halted (F N : Nat) : ImageAnim :=
  { frameCount := F, loopCount := N, framesLoaded := F,
    currentFrame := F - 1, currentLoop := N, animate := false, destroyed := false }

theorem ImageAnim.traj (F N : Nat) (hF : 1 < F) :
    ∀ k, k ≤ N * F + (F - 1) →
      Image.nextFrame^[k] (ImageAnim.loaded F N) =
        { frameCount := F, loopCount := N, framesLoaded := F,
          currentFrame := k % F, currentLoop := k / F,
          animate := true, destroyed := false } := by
  intro k
  induction k with
  | zero =>
    intro _
    simp [ImageAnim.loaded, Nat.zero_mod, Nat.zero_div]
  | succ k ih =>
    intro hk
    have hk' : k ≤ N * F + (F - 1) := Nat.le_of_succ_le hk
    have hF0 : 0 < F := Nat.lt_of_lt_of_le Nat.one_pos (Nat.le_of_lt hF)
    have hmod : k % F < F := Nat.mod_lt _ hF0
    have hdm : F * (k / F) + k % F = k := Nat.div_add_mod k F
    rw [Function.iterate_succ_apply', ih hk']
    by_cases hwrap : k % F + 1 < F
    · have hmod1 : (k + 1) / F = k / F ∧ (k + 1) % F = k % F + 1 := by
        exact (Nat.div_mod_unique hF0).mpr ⟨by omega, hwrap⟩
      simp only [Image.nextFrame, ImageAnim.commitFrame]
      rw [if_neg (by simp), if_neg (by omega), if_neg (by omega), if_pos (by omega)]
      simp [hmod1.1, hmod1.2]
    · have heq : k % F + 1 = F := by omega
      have hloop : k / F < N := by
        by_contra hge
        have h1 : N ≤ k / F := Nat.le_of_not_lt hge
        have h2 : F * N ≤ F * (k / F) := Nat.mul_le_mul_left F h1
        have hc : F * N = N * F := Nat.mul_comm F N
        omega
      have hexp : F * (k / F + 1) = F * (k / F) + F := Nat.mul_succ F (k / F)
      have hmod1 : (k + 1) / F = k / F + 1 ∧ (k + 1) % F = 0 := by
        exact (Nat.div_mod_unique hF0).mpr ⟨by omega, hF0⟩
      simp only [Image.nextFrame, ImageAnim.commitFrame]
      rw [if_neg (by simp), if_neg (by omega), if_pos (by omega), if_neg (by omega),
        if_pos (by omega)]
      simp [hmod1.1, hmod1.2]

theorem ImageAnim.halted_fixed (F N : Nat) (hN : 0 < N) :
    Image.nextFrame (ImageAnim.halted F N) = ImageAnim.halted F N := by
  by_cases hF : F ≤ 1
  · simp [Image.nextFrame, ImageAnim.halted, hF]
  · simp only [Image.nextFrame, ImageAnim.halted]
    rw [if_neg (by simp), if_neg (by omega), if_pos (by omega), if_pos (by omega)]

/-- C1 counterexample: with frameCount F = 2 and loopCount N = 1, after exactly
N × F = 2 calls to nextFrame the animation has not halted (the animate flag is
still set) and the very next call still changes currentFrame, contradicting the
claim that N × F advances suffice to halt. -/
theorem C1_counterexample :
    (Image.nextFrame^[1 * 2] (ImageAnim.loaded 2 1)).animate = true ∧
    (Image.nextFrame^[1 * 2 + 1] (ImageAnim.loaded 2 1)).currentFrame ≠
      (Image.nextFrame^[1 * 2] (ImageAnim.loaded 2 1)).currentFrame := by
  decide

/-- C1 amended: for every fully loaded Image with frameCount F > 1 and
loopCount N > 0, the animation halts after exactly (N + 1) × F = N × F + F calls
to nextFrame (it is still animating one call earlier): the state reached is the
halted state at frame F - 1 of loop N, and every further call leaves
currentFrame and currentLoop (indeed the whole state) unchanged. -/
theorem C1_animation_halts (F N : Nat) (hF : 1 < F) (hN : 0 < N) :
    (Image.nextFrame^[N * F + F - 1] (ImageAnim.loaded F N)).animate = true ∧
    Image.nextFrame^[N * F + F] (ImageAnim.loaded F N) = ImageAnim.halted F N ∧
    ∀ k, Image.nextFrame^[k] (ImageAnim.halted F N) = ImageAnim.halted F N := by
  have hF0 : 0 < F := Nat.lt_of_lt_of_le Nat.one_pos (Nat.le_of_lt hF)
  have hpred : N * F + F - 1 = N * F + (F - 1) := by omega
  have htraj := ImageAnim.traj F N hF (N * F + (F - 1)) (Nat.le_refl _)
  have hmod : (N * F + (F - 1)) % F = F - 1 := by
    rw [Nat.add_comm, Nat.add_mul_mod_self_right]
    exact Nat.mod_eq_of_lt (by omega)
  have hdiv : (N * F + (F - 1)) / F = N := by
    rw [Nat.add_comm, Nat.add_mul_div_right _ _ hF0, Nat.div_eq_of_lt (by omega)]
    omega
  refine ⟨by rw [hpred, htraj], ?_, ?_⟩
  · have hstep : N * F + F = (N * F + (F - 1)) + 1 := by omega
    rw [hstep, Function.iterate_succ_apply', htraj, hmod, hdiv]
    simp only [Image.nextFrame, ImageAnim.halted]
    rw [if_neg (by simp), if_neg (by omega), if_pos (by omega), if_pos (by omega)]
  · intro k
    induction k with
    | zero => rfl
    | succ k ih => rw [Function.iterate_succ_apply', ih, ImageAnim.halted_fixed F N hN]

/-- C1 witness: concrete instance F = 2, N = 1 of the amended halt theorem. -/
theorem C1_animation_halts_witness :
    Image.nextFrame^[1 * 2 + 2] (ImageAnim.loaded 2 1) = ImageAnim.halted 2 1 := by
  have h := C1_animation_halts 2 1 (by decide) (by decide)
  exact h.2.1

/-! ## Image.getFrame (src/lib/image.js lines 481-489) -/

/-- Translation of `Image.getFrame`: `checkImageDestroyed` throws exactly when the
Image is destroyed; otherwise, when `_frames[_currentFrame]` is missing but some
frames have loaded, the last loaded frame (`_frames[_frames.length - 1]`) is
returned, else `_frames[_currentFrame] ?? null`. `none` models the `null`
not-ready signal. -/
def Image.getFrame (destroyed : Bool) (frames : List α) (currentFrame : Nat) :
    Except String (Option α) :=
  if destroyed then .error "Image has been destroyed!"
  else if (frames.get? currentFrame).isNone ∧ frames.length ≠ 0 then
    .ok (frames.get? (frames.length - 1))
  else
    .ok (frames.get? currentFrame)

theorem List.getLast?_eq_get?_pred : ∀ (l : List α), l.getLast? = l.get? (l.length - 1)
  | [] => rfl
  | [_] => rfl
  | _ :: b :: l => by
    rw [List.getLast?_cons_cons]
    simpa using List.getLast?_eq_get?_pred (b :: l)

/-- C6: on a non-destroyed Image, getFrame never throws, and returns the frame at
the current index if that frame has loaded, otherwise the last successfully
loaded frame, otherwise the explicit not-ready signal `null` when no frame has
loaded yet. -/
theorem C6_getFrame_spec (frames : List α) (cf : Nat) :
    (∃ r, Image.getFrame false frames cf = .ok r) ∧
    (cf < frames.length → Image.getFrame false frames cf = .ok (frames.get? cf)) ∧
    (frames.length ≤ cf → frames ≠ [] →
      Image.getFrame false frames cf = .ok frames.getLast?) ∧
    (frames = [] → Image.getFrame false frames cf = .ok none) := by
  refine ⟨?_, ?_, ?_, ?_⟩
  · simp only [Image.getFrame, if_neg (Bool.false_ne_true)]
    by_cases h : (frames.get? cf).isNone ∧ frames.length ≠ 0
    · exact ⟨_, by rw [if_pos h]⟩
    · exact ⟨_, by rw [if_neg h]⟩
  · intro h
    have hnone : frames.get? cf ≠ none := fun hn =>
      absurd (List.get?_eq_none.mp hn) (by omega)
    simp only [Image.getFrame, if_neg (Bool.false_ne_true)]
    rw [if_neg (fun hc => hnone (Option.isNone_iff_eq_none.mp hc.1))]
  · intro h hne
    have hnone : frames.get? cf = none := List.get?_eq_none.mpr h
    have hlen : frames.length ≠ 0 := fun h0 => hne (List.length_eq_zero.mp h0)
    simp only [Image.getFrame, if_neg (Bool.false_ne_true)]
    rw [if_pos ⟨Option.isNone_iff_eq_none.mpr hnone, hlen⟩, List.getLast?_eq_get?_pred]
  · intro h
    subst h
    simp [Image.getFrame]

/-- C6 witness: a frames list still loading (current index 5 not yet present)
yields the last loaded frame, and an empty frames list yields the null signal. -/
theorem C6_getFrame_spec_witness :
    Image.getFrame false [10, 20] 5 = .ok (some 20) ∧
    Image.getFrame false ([] : List Nat) 0 = .ok none := by
  constructor
  · have h := (C6_getFrame_spec [10, 20] 5).2.2.1 (by decide) (by decide)
    simpa using h
  · exact (C6_getFrame_spec ([] : List Nat) 0).2.2.2 rfl

/-! ## loadImage source resolution (src/lib/image.js lines 770-951) -/

/-- One compositing layer as produced by the source-resolution stage of
`loadImage`: its pixel dimensions, and the solid rgba fill it was created with
when the layer came from a sharp `create` call (color and empty sources). -/
structure Layer where
  width : Nat
  height : Nat
  fill : Option (Nat × Nat × Nat × Nat)
deriving DecidableEq

/-- Layer synthesized by the sharp `create` call at image.js lines 940-947: a
fully transparent (rgba 0,0,0,0) layer sized to the Image's WIDTH × HEIGHT. -/
def transparentLayer (W H : Nat) : Layer :=
  { width := W, height := H, fill := some (0, 0, 0, 0) }

/-- Raw image source after flattening, as dispatched by the parse stage of
`loadImage` (image.js lines 782-883). The sharp decode of a file path, Buffer or
Image reference and the parse of a color can throw; a throw is caught, reported
via a non-fatal error event and turns the source into `null` (modelled by the
Option being none). An `empty` source is rewritten into a fully transparent
color fill. A source matching no recognized shape is dropped with an error. -/
inductive RawSource where
  | external (decoded : Option Layer)
  | empty
  | color (parsed : Option Layer)
  | unrecognized
deriving DecidableEq

/-- Parse stage of one source (image.js lines 782-883): the resolved layer, or
none when the source was dropped with a recoverable error. -/
def resolveSource (W H : Nat) : RawSource → Option Layer
  | .external d => d
  | .empty => some (transparentLayer W H)
  | .color p => p
  | .unrecognized => none

/-- One source entry together with the outcome flags of its sharp stages:
`resizeDisabled` models `sourceData.resize === false`, `hasResizeOptions` models
a `resizeOptions` object being present, and `resizeFails` models the resize
sharp call throwing (in which case the source is dropped, image.js 926-930). -/
structure SourceSpec where
  raw : RawSource
  resizeDisabled : Bool
  hasResizeOptions : Bool
  resizeFails : Bool
deriving DecidableEq

/-- Resize stage of one resolved source (image.js lines 888-932): skipped when
resize is disabled, or when no resizeOptions were given and the source already
matches the target dimensions; a throwing resize drops the source. -/
def resizeSource (W H : Nat) (s : SourceSpec) (l : Layer) : Option Layer :=
  if s.resizeDisabled then some l
  else if ¬s.hasResizeOptions = true ∧ l.width = W ∧ l.height = H then some l
  else if s.resizeFails then none
  else some { l with width := W, height := H }

/-- Parse plus resize outcome of one source entry. -/
def resolveAndResize (W H : Nat) (s : SourceSpec) : Option Layer :=
  (resolveSource W H s.raw).bind (resizeSource W H s)

/-- Source list produced by `loadImage` up to the compositing step (image.js
lines 770-951): sources that fail to parse or resize are filtered out
(lines 885 and 934), and when no source survives a single fully transparent
source sized WIDTH × HEIGHT is synthesized (lines 937-951). -/
def loadImageLayers (W H : Nat) (sources : List SourceSpec) : List Layer :=
  let resolved := sources.filterMap (resolveAndResize W H)
  if resolved.isEmpty then [transparentLayer W H] else resolved

/-- C7: a load never terminates with zero layers; every failure drops only its
own source (each successfully resolved source survives into the layer list);
and when no source resolves the layer list is exactly one synthesized fully
transparent layer sized to the target WIDTH × HEIGHT. -/
theorem C7_load_never_empty (W H : Nat) (sources : List SourceSpec) :
    (loadImageLayers W H sources).length ≠ 0 ∧
    (∀ s ∈ sources, ∀ l, resolveAndResize W H s = some l →
      l ∈ loadImageLayers W H sources) ∧
    (sources.filterMap (resolveAndResize W H) = [] →
      loadImageLayers W H sources = [transparentLayer W H] ∧
      (transparentLayer W H).width = W ∧ (transparentLayer W H).height = H ∧
      (transparentLayer W H).fill = some (0, 0, 0, 0)) := by
  refine ⟨?_, ?_, ?_⟩
  · simp only [loadImageLayers]
    by_cases h : (sources.filterMap (resolveAndResize W H)).isEmpty
    · rw [if_pos h]; simp
    · rw [if_neg h]
      simpa [List.isEmpty_iff_length_eq_zero] using h
  · intro s hs l hl
    have hmem : l ∈ sources.filterMap (resolveAndResize W H) :=
      List.mem_filterMap.mpr ⟨s, hs, hl⟩
    simp only [loadImageLayers]
    rw [if_neg (by intro h; rw [List.isEmpty_iff] at h; simp [h] at hmem)]
    exact hmem
  · intro h
    refine ⟨?_, rfl, rfl, rfl⟩
    simp only [loadImageLayers, h]
    rfl

/-- C7 witness: a load whose sources all fail (an unrecognized source, a file
whose decode throws, and a color source whose resize throws) produces exactly
the synthesized transparent 72 × 72 layer. -/
theorem C7_load_never_empty_witness :
    loadImageLayers 72 72
        [⟨RawSource.unrecognized, false, false, false⟩,
         ⟨RawSource.external none, false, false, false⟩,
         ⟨RawSource.color (some ⟨10, 10, none⟩), false, false, true⟩] =
      [transparentLayer 72 72] := by
  have h := (C7_load_never_empty 72 72
    [⟨RawSource.unrecognized, false, false, false⟩,
     ⟨RawSource.external none, false, false, false⟩,
     ⟨RawSource.color (some ⟨10, 10, none⟩), false, false, true⟩]).2.2 (by decide)
  exact h.1

/-! ## WildArrayValuedSet and Key.isPressed
(src/lib/wild-array-valued-set.js, src/lib/key.js lines 566-586) -/

/-- Elementwise match used by `WildArrayValuedSet.wildHas` at one array position
(wild-array-valued-set.js line 87): the position matches unless the stored value
differs from the query value and the query value is not undefined; `none` models
the JavaScript value `undefined`. -/
def wildSlotMatches [DecidableEq α] (stored query : Option α) : Bool :=
  decide (query = none) || decide (stored = query)

theorem wildSlotMatches_iff [DecidableEq α] (stored query : Option α) :
    wildSlotMatches stored query = true ↔ (query = none ∨ stored = query) := by
  simp [wildSlotMatches]

/-- Translation of `WildArrayValuedSet.wildHas` (wild-array-valued-set.js lines
74-96) specialized to the two-element `[index, page]` arrays that Key stores in
its `_downStates` / `_holdStates` / `_pressStates` sets: some stored pair matches
the query elementwise with undefined acting as a wildcard. -/
def WildPairSet.wildHas [DecidableEq α] [DecidableEq β]
    (s : List (Option α × Option β)) (q : Option α × Option β) : Bool :=
  s.any fun e => wildSlotMatches e.1 q.1 && wildSlotMatches e.2 q.2

/-- Translation of `WildArrayValuedSet.add` (wild-array-valued-set.js lines 2-24)
specialized to `[index, page]` pairs: when an elementwise-equal pair is already
stored the set is returned unchanged, otherwise the pair is appended. -/
def WildPairSet.add [DecidableEq α] [DecidableEq β]
    (s : List (Option α × Option β)) (e : Option α × Option β) :
    List (Option α × Option β) :=
  if e ∈ s then s else s ++ [e]

/-- Translation of `Key.isPressed` (key.js lines 566-586): after validating its
optional arguments it returns `this._pressStates.wildHas([index, page])`. -/
def Key.isPressed [DecidableEq α] [DecidableEq β]
    (pressStates : List (Option α × Option β)) (index : Option α) (page : Option β) :
    Bool :=
  WildPairSet.wildHas pressStates (index, page)

/-- C10: isPressed returns true exactly when some recorded pressed pair matches
the arguments elementwise with an omitted (undefined) argument matching any
value; with both arguments omitted it reports whether any pair is recorded at
all; and adding an elementwise-equal pair twice never creates a duplicate entry
(add is idempotent and preserves the no-duplicates property). -/
theorem C10_isPressed_spec [DecidableEq α] [DecidableEq β]
    (s : List (Option α × Option β)) (index : Option α) (page : Option β) :
    (Key.isPressed s index page = true ↔
      ∃ e ∈ s, (index = none ∨ e.1 = index) ∧ (page = none ∨ e.2 = page)) ∧
    (Key.isPressed s none none = true ↔ s ≠ []) ∧
    (∀ e, WildPairSet.add (WildPairSet.add s e) e = WildPairSet.add s e) ∧
    (∀ e, s.Nodup → (WildPairSet.add s e).Nodup) := by
  refine ⟨?_, ?_, ?_, ?_⟩
  · constructor
    · intro hp
      rcases List.any_eq_true.mp hp with ⟨e, he, hmatch⟩
      rw [Bool.and_eq_true, wildSlotMatches_iff, wildSlotMatches_iff] at hmatch
      exact ⟨e, he, hmatch.1, hmatch.2⟩
    · rintro ⟨e, he, h1, h2⟩
      refine List.any_eq_true.mpr ⟨e, he, ?_⟩
      rw [Bool.and_eq_true, wildSlotMatches_iff, wildSlotMatches_iff]
      exact ⟨h1, h2⟩
  · constructor
    · intro hp hnil
      subst hnil
      simp [Key.isPressed, WildPairSet.wildHas] at hp
    · intro hne
      rcases List.exists_mem_of_ne_nil s hne with ⟨e, he⟩
      refine List.any_eq_true.mpr ⟨e, he, ?_⟩
      simp [wildSlotMatches]
  · intro e
    by_cases h : e ∈ s
    · simp [WildPairSet.add, h]
    · simp [WildPairSet.add, h]
  · intro e hnd
    by_cases h : e ∈ s
    · simpa [WildPairSet.add, h] using hnd
    · rw [WildPairSet.add, if_neg h, ← List.concat_eq_append]
      exact List.Nodup.concat h hnd

/-- C10 witness: with the pair (0, 7) recorded, a query on index 0 with the page
argument omitted reports pressed, and querying with both arguments omitted also
reports pressed. -/
theorem C10_isPressed_spec_witness :
    Key.isPressed [((some 0 : Option Nat), (some 7 : Option Nat))] (some 0) none = true ∧
    Key.isPressed [((some 0 : Option Nat), (some 7 : Option Nat))] none none = true := by
  constructor
  · exact (C10_isPressed_spec [((some 0 : Option Nat), (some 7 : Option Nat))]
      (some 0) none).1.mpr ⟨(some 0, some 7), by simp, Or.inr rfl, Or.inl rfl⟩
  · exact (C10_isPressed_spec [((some 0 : Option Nat), (some 7 : Option Nat))]
      none none).2.1.mpr (by simp)

/-! ## Page.attachKey and Page.detachKey
(src/lib/page.js, lines 2043-2111 and 2165-2229 of the combined source) -/

/-- JavaScript Map membership test over `Page._keys`, modelled as the entry list
in insertion order. -/
def mapHas [DecidableEq K] (m : List (Nat × K)) (i : Nat) : Bool :=
  m.any fun e => decide (e.1 = i)

/-- JavaScript Map lookup over `Page._keys`. -/
def mapGet [DecidableEq K] (m : List (Nat × K)) (i : Nat) : Option K :=
  (m.find? fun e => decide (e.1 = i)).map (·.2)

/-- Loop filter of `Page.detachKey` (lines 2210-2217): an entry is skipped when an
index was given and differs, or a key was given and differs; the loop acts on the
first entry that passes both filters. -/
def detachMatches [DecidableEq K] (index : Option Nat) (key : Option K)
    (e : Nat × K) : Bool :=
  (match index with | some i => decide (e.1 = i) | none => true) &&
    (match key with | some k => decide (e.2 = k) | none => true)

/-- First attachment matched by the `Page.detachKey` loop. -/
def findAttachment [DecidableEq K] (m : List (Nat × K)) (index : Option Nat)
    (key : Option K) : Option (Nat × K) :=
  m.find? (detachMatches index key)

/-- Observable outcome of one `Page.detachKey` call: the key map afterwards, the
detach events emitted at the StreamDeck, Page and Key scopes (each event records
the `(attachedIndex, attachedKey)` arguments), and whether the call ended in a
TypeError because `key.emit` was invoked on the undefined `key` parameter
(line 2223 uses the parameter `key`, not the loop variable `attachedKey`). -/
structure DetachOutcome (K : Type) where
  keys : List (Nat × K)
  streamDeckDetaches : List (Nat × K)
  pageDetaches : List (Nat × K)
  keyDetaches : List (Nat × K)
  throwsTypeError : Bool
deriving DecidableEq

/-- Translation of `Page.detachKey` in its index/key form (lines 2165-2229), after
the argument normalization of the three call shapes: `checkValid` rejects an
undefined key when no index was given and an out-of-range index; the loop then
deletes the first matching attachment from the Map and emits the StreamDeck- and
Page-level detach events; the final `key.emit` call notifies the key parameter
when one was given, and raises a TypeError when the key argument was omitted. -/
def Page.detachKey [DecidableEq K] (keyCount : Nat) (m : List (Nat × K))
    (index : Option Nat) (key : Option K) : Except String (DetachOutcome K) :=
  if index.isNone && key.isNone then
    .error "Expected key to be a Key class!"
  else if index.any fun i => decide (keyCount ≤ i) then
    .error "Expected index to be no more than KEY_COUNT - 1!"
  else
    match findAttachment m index key with
    | none =>
      .ok { keys := m, streamDeckDetaches := [], pageDetaches := [],
            keyDetaches := [], throwsTypeError := false }
    | some (ai, ak) =>
      if key.isNone then
        .ok { keys := m.eraseP fun e => decide (e.1 = ai),
              streamDeckDetaches := [(ai, ak)], pageDetaches := [(ai, ak)],
              keyDetaches := [], throwsTypeError := true }
      else
        .ok { keys := m.eraseP fun e => decide (e.1 = ai),
              streamDeckDetaches := [(ai, ak)], pageDetaches := [(ai, ak)],
              keyDetaches := [(ai, ak)], throwsTypeError := false }

/-- Index computed by `Page.attachKey` and `Page.detachKey` from 1-based
row/column coordinates (lines 2063 and 2185). -/
def Page.rcIndex (panelColumnCount row column : Nat) : Nat :=
  column - 1 + (row - 1) * panelColumnCount

/-- Result of `Page.attachKey` in its row/column form. -/
inductive AttachResult (K : Type) where
  | validationError
  | typeErrorDuringDetach (keys : List (Nat × K))
  | ok (keys : List (Nat × K)) (index : Nat)
deriving DecidableEq

/-- Translation of `Page.attachKey` in its row/column form (lines 2043-2111):
row and column are validated against the panel dimensions and the index is
`column - 1 + (row - 1) * PANEL_COLUMN_COUNT`; when the slot is occupied the
source first calls `this.detachKey(index)` with no key argument, which removes
the old attachment, fires the StreamDeck- and Page-level detach events and then
raises a TypeError that aborts the attach; on a free slot the key is stored
(`Map.set` appends an absent key at the end) and the attach events fire. -/
def Page.attachKeyRC [DecidableEq K] (keyCount panelRowCount panelColumnCount : Nat)
    (m : List (Nat × K)) (row column : Nat) (k : K) : AttachResult K :=
  if 1 ≤ row ∧ row ≤ panelRowCount ∧ 1 ≤ column ∧ column ≤ panelColumnCount then
    let index := Page.rcIndex panelColumnCount row column
    if mapHas m index then
      match Page.detachKey keyCount m (some index) none with
      | .ok o => .typeErrorDuringDetach o.keys
      | .error _ => .validationError
    else
      .ok (m ++ [(index, k)]) index
  else
    .validationError

theorem findAttachment_append_self [DecidableEq K] (m : List (Nat × K)) (i : Nat)
    (k : K) (hfree : mapHas m i = false) :
    findAttachment (m ++ [(i, k)]) (some i) (some k) = some (i, k) := by
  induction m with
  | nil => simp [findAttachment, List.find?, detachMatches]
  | cons e es ih =>
    rw [mapHas, List.any_cons, Bool.or_eq_false_iff] at hfree
    rw [findAttachment, List.cons_append, List.find?]
    have hne : detachMatches (some i) (some k) e = false := by
      simp only [detachMatches]
      rw [hfree.1]
      rfl
    rw [hne]
    exact ih hfree.2

theorem eraseP_append_self [DecidableEq K] (m : List (Nat × K)) (i : Nat) (k : K)
    (hfree : mapHas m i = false) :
    (m ++ [(i, k)]).eraseP (fun e => decide (e.1 = i)) = m := by
  induction m with
  | nil => simp [List.eraseP]
  | cons e es ih =>
    rw [mapHas, List.any_cons, Bool.or_eq_false_iff] at hfree
    rw [List.cons_append, List.eraseP_cons, hfree.1]
    simp only [cond_false]
    rw [ih hfree.2]

theorem findAttachment_none_of_not_has [DecidableEq K] (m : List (Nat × K))
    (i : Nat) (key : Option K) (hfree : mapHas m i = false) :
    findAttachment m (some i) key = none := by
  rw [findAttachment, List.find?_eq_none]
  intro e he
  have : decide (e.1 = i) = false := by
    by_contra hc
    have : e.1 = i := of_decide_eq_true (Bool.of_not_eq_false hc)
    have : mapHas m i = true := List.any_eq_true.mpr ⟨e, he, by simp [this]⟩
    rw [this] at hfree
    exact Bool.noConfusion hfree
  simp [detachMatches, this]

/-- C4: attaching a key by valid (row, column) coordinates to a free slot stores
it at index column - 1 + (row - 1) × PANEL_COLUMN_COUNT (appended to the page's
key map), and subsequently detaching by that index removes exactly the
attachment just created, restoring the original map and notifying exactly that
(index, key) attachment at the StreamDeck, Page and Key scopes. -/
theorem C4_attach_detach_roundtrip [DecidableEq K] (keyCount rows cols : Nat)
    (m : List (Nat × K)) (k : K) (row column : Nat)
    (hrc : 1 ≤ row ∧ row ≤ rows ∧ 1 ≤ column ∧ column ≤ cols)
    (hfree : mapHas m (Page.rcIndex cols row column) = false)
    (hbound : Page.rcIndex cols row column < keyCount) :
    Page.attachKeyRC keyCount rows cols m row column k =
      .ok (m ++ [(Page.rcIndex cols row column, k)]) (Page.rcIndex cols row column) ∧
    Page.detachKey keyCount (m ++ [(Page.rcIndex cols row column, k)])
        (some (Page.rcIndex cols row column)) (some k) =
      .ok { keys := m,
            streamDeckDetaches := [(Page.rcIndex cols row column, k)],
            pageDetaches := [(Page.rcIndex cols row column, k)],
            keyDetaches := [(Page.rcIndex cols row column, k)],
            throwsTypeError := false } := by
  constructor
  · rw [Page.attachKeyRC, if_pos hrc]
    simp only [hfree]
    rfl
  · rw [Page.detachKey]
    rw [if_neg (by simp), if_neg (by simp [hbound, Nat.not_le])]
    rw [findAttachment_append_self m _ k hfree]
    simp only [Option.isNone_some, Bool.false_eq_true, if_false]
    rw [eraseP_append_self m _ k hfree]

/-- C4 witness: on a 3 × 5 panel with 15 keys and an empty page, attaching at
row 2, column 3 stores the key at index 7 and detaching index 7 removes it. -/
theorem C4_attach_detach_roundtrip_witness :
    Page.attachKeyRC 15 3 5 ([] : List (Nat × Nat)) 2 3 99 = .ok [(7, 99)] 7 ∧
    Page.detachKey 15 [((7 : Nat), (99 : Nat))] (some 7) (some 99) =
      .ok { keys := [], streamDeckDetaches := [(7, 99)], pageDetaches := [(7, 99)],
            keyDetaches := [(7, 99)], throwsTypeError := false } := by
  have h := C4_attach_detach_roundtrip 15 3 5 ([] : List (Nat × Nat)) 99 2 3
    (by decide) (by decide) (by decide)
  exact ⟨h.1, h.2⟩

/-- C8: detaching an (index, page) pair that has no current attachment is a
no-op: the key map is unchanged and no detach notification is emitted at any
scope, whether or not a key argument is supplied. -/
theorem C8_detach_idempotent [DecidableEq K] (keyCount : Nat) (m : List (Nat × K))
    (i : Nat) (hi : i < keyCount) (hfree : mapHas m i = false) :
    Page.detachKey keyCount m (some i) none =
      .ok { keys := m, streamDeckDetaches := [], pageDetaches := [],
            keyDetaches := [], throwsTypeError := false } ∧
    ∀ k, Page.detachKey keyCount m (some i) (some k) =
      .ok { keys := m, streamDeckDetaches := [], pageDetaches := [],
            keyDetaches := [], throwsTypeError := false } := by
  constructor
  · rw [Page.detachKey]
    rw [if_neg (by simp), if_neg (by simp [hi, Nat.not_le])]
    rw [findAttachment_none_of_not_has m i none hfree]
  · intro k
    rw [Page.detachKey]
    rw [if_neg (by simp), if_neg (by simp [hi, Nat.not_le])]
    rw [findAttachment_none_of_not_has m i (some k) hfree]

/-- C8 witness: detaching index 3 on a page whose only attachment sits at index 1
leaves the map unchanged and emits nothing. -/
theorem C8_detach_idempotent_witness :
    Page.detachKey 15 [((1 : Nat), (42 : Nat))] (some 3) none =
      .ok { keys := [(1, 42)], streamDeckDetaches := [], pageDetaches := [],
            keyDetaches := [], throwsTypeError := false } := by
  exact (C8_detach_idempotent 15 [((1 : Nat), (42 : Nat))] 3 (by decide) (by decide)).1

/-- C9: calling `page.detachKey(index)` with only the index argument while a key
is attached at that index deletes the attachment from the key map and emits the
StreamDeck-level and Page-level detach notifications, but raises a TypeError
before the detached key's own detach notification fires, because the emission
targets the undefined `key` parameter rather than the attached key. -/
theorem C9_detach_without_key_typeerror [DecidableEq K] (keyCount : Nat)
    (m : List (Nat × K)) (i : Nat) (k : K) (hi : i < keyCount)
    (hattach : findAttachment m (some i) none = some (i, k)) :
    Page.detachKey keyCount m (some i) none =
      .ok { keys := m.eraseP fun e => decide (e.1 = i),
            streamDeckDetaches := [(i, k)], pageDetaches := [(i, k)],
            keyDetaches := [], throwsTypeError := true } := by
  rw [Page.detachKey]
  rw [if_neg (by simp), if_neg (by simp [hi, Nat.not_le])]
  rw [hattach]
  rfl

/-- C9 witness: a page with key 42 attached at index 1; detaching by index 1
alone removes the attachment, notifies the StreamDeck and Page scopes, emits no
key-scope notification and ends in a TypeError. -/
theorem C9_detach_without_key_typeerror_witness :
    Page.detachKey 15 [((1 : Nat), (42 : Nat))] (some 1) none =
      .ok { keys := [], streamDeckDetaches := [(1, 42)], pageDetaches := [(1, 42)],
            keyDetaches := [], throwsTypeError := true } := by
  have h := C9_detach_without_key_typeerror 15 [((1 : Nat), (42 : Nat))] 1 42
    (by decide) (by decide)
  simpa using h

/-! ## Hold/click interaction cycle
(StreamDeck handlers: src/lib/streamdeck.js lines 334-419 of the combined
source; Page handlers: lines 1604-1676; Key handlers: src/lib/key.js
lines 235-324) -/

/-- Notification kinds relevant to the hold / held / click distinction. -/
inductive Notif where
  | hold
  | click
  | held
deriving DecidableEq, Repr

/-- Hold-duration configuration for one (index, page, key) interaction: the
StreamDeck-level HOLD_TIME (a number, default 500), and the optional Page- and
Key-level HOLD_TIME overrides, where `none` models undefined (which lets hold
events propagate down from coarser scopes). -/
structure HoldConfig where
  deviceHoldTime : Nat
  pageHoldTime : Option Nat
  keyHoldTime : Option Nat
deriving DecidableEq

/-- Hold duration in effect at the key scope: the Key-level duration if defined,
otherwise the Page-level duration if defined, otherwise the device default. -/
def HoldConfig.resolvedKeyHoldTime (c : HoldConfig) : Nat :=
  c.keyHoldTime.getD (c.pageHoldTime.getD c.deviceHoldTime)

/-- Whether the StreamDeck-level hold timer armed by the down handler (line 356:
only when HOLD_TIME > 0) fires before an up arriving t milliseconds later. -/
def HoldConfig.deviceTimerFires (c : HoldConfig) (t : Nat) : Bool :=
  decide (0 < c.deviceHoldTime) && decide (c.deviceHoldTime ≤ t)

/-- Whether the Page-level hold timer (armed at line 1623 only when Page
HOLD_TIME is a number greater than 0) fires before the up at time t. -/
def HoldConfig.pageTimerFires (c : HoldConfig) (t : Nat) : Bool :=
  match c.pageHoldTime with
  | some p => decide (0 < p) && decide (p ≤ t)
  | none => false

/-- Whether the Key-level hold timer (armed at key.js line 255 only when Key
HOLD_TIME is a number greater than 0) fires before the up at time t. -/
def HoldConfig.keyTimerFires (c : HoldConfig) (t : Nat) : Bool :=
  match c.keyHoldTime with
  | some k => decide (0 < k) && decide (k ≤ t)
  | none => false

/-- State threaded through one press/release cycle for a fixed (index, page)
pair: membership of the index in `StreamDeck._holdIndexes` and
`Page._holdIndexes`, membership of the pair in `Key._holdStates`, and the
notifications emitted on the Key so far. -/
structure CycleState where
  devHoldIdx : Bool
  pageHoldIdx : Bool
  keyHoldSt : Bool
  keyNotifs : List Notif
deriving DecidableEq

/-- Key 'hold' listener (key.js lines 283-293): when the Key's own HOLD_TIME is a
number the listener returns immediately; otherwise the propagated hold marks the
pair held. -/
def keyHoldListener (c : HoldConfig) (s : CycleState) : CycleState :=
  if c.keyHoldTime.isSome then s else { s with keyHoldSt := true }

/-- Page 'hold' listener (lines 1639-1649): when the Page's own HOLD_TIME is a
number the listener returns immediately; otherwise the propagated hold marks the
index held. -/
def pageHoldListener (c : HoldConfig) (s : CycleState) : CycleState :=
  if c.pageHoldTime.isSome then s else { s with pageHoldIdx := true }

/-- Key hold-timer callback (key.js lines 257-263): marks the pair held and emits
'hold' on the Key; the Key's own 'hold' listener then returns because HOLD_TIME
is a number. -/
def keyTimerCallback (s : CycleState) : CycleState :=
  { s with keyHoldSt := true, keyNotifs := s.keyNotifs ++ [Notif.hold] }

/-- Page hold-timer callback (lines 1625-1635): marks the index held, emits
'hold' on the Page (whose own listener returns, HOLD_TIME being a number), and
propagates 'hold' to the Key when the Key's HOLD_TIME is not a number. -/
def pageTimerCallback (c : HoldConfig) (s : CycleState) : CycleState :=
  let s := { s with pageHoldIdx := true }
  if ¬c.keyHoldTime.isSome then
    keyHoldListener c { s with keyNotifs := s.keyNotifs ++ [Notif.hold] }
  else s

/-- StreamDeck hold-timer callback (lines 359-373): marks the index held, emits
'hold' on the StreamDeck, and propagates 'hold' to the Page — and nested inside,
to the Key — only through scopes whose own HOLD_TIME is not a number. -/
def devTimerCallback (c : HoldConfig) (s : CycleState) : CycleState :=
  let s := { s with devHoldIdx := true }
  if ¬c.pageHoldTime.isSome then
    let s := pageHoldListener c s
    if ¬c.keyHoldTime.isSome then
      keyHoldListener c { s with keyNotifs := s.keyNotifs ++ [Notif.hold] }
    else s
  else s

/-- Key 'up' listener (key.js lines 295-324): reads the held flag, clears the
pair's state, and emits 'held' or 'click' on the Key only when the Key's own
HOLD_TIME is a number. -/
def keyUpListener (c : HoldConfig) (s : CycleState) : CycleState :=
  let held := s.keyHoldSt
  let s := { s with keyHoldSt := false }
  if c.keyHoldTime.isSome then
    { s with keyNotifs := s.keyNotifs ++ [if held then Notif.held else Notif.click] }
  else s

/-- Page 'up' listener (lines 1651-1676): reads the held flag for the index,
clears it, and — only when the Page's own HOLD_TIME is a number — emits 'held'
or 'click' on the Page and propagates it to the attached Key when that Key's
HOLD_TIME is not a number. -/
def pageUpListener (c : HoldConfig) (s : CycleState) : CycleState :=
  let held := s.pageHoldIdx
  let s := { s with pageHoldIdx := false }
  if c.pageHoldTime.isSome then
    if ¬c.keyHoldTime.isSome then
      { s with keyNotifs := s.keyNotifs ++ [if held then Notif.held else Notif.click] }
    else s
  else s

/-- StreamDeck 'up' handler (lines 382-419): cancels the device hold timer, reads
the held flag, emits 'up' on the Page (running the Page 'up' listener) and then
on the Key (running the Key 'up' listener), then emits 'held' or 'click' on the
StreamDeck and propagates it to the Page — and nested inside, to the Key — only
through scopes whose own HOLD_TIME is not a number. -/
def devUpHandler (c : HoldConfig) (s : CycleState) : CycleState :=
  let held := s.devHoldIdx
  let s := pageUpListener c s
  let s := keyUpListener c s
  let s := { s with devHoldIdx := false }
  if ¬c.pageHoldTime.isSome then
    if ¬c.keyHoldTime.isSome then
      { s with keyNotifs := s.keyNotifs ++ [if held then Notif.held else Notif.click] }
    else s
  else s

/-- One full down / up cycle at a fixed (index, page) pair with the up arriving
t milliseconds after the down: the down handlers reset all three hold flags and
arm the timers; each armed timer whose duration d satisfies 0 < d ≤ t fires
before the up (the callbacks only set flags and append notifications, so their
relative order does not affect the resulting state); finally the StreamDeck 'up'
handler runs. -/
def pressCycle (c : HoldConfig) (t : Nat) : CycleState :=
  let s : CycleState := { devHoldIdx := false, pageHoldIdx := false,
                          keyHoldSt := false, keyNotifs := [] }
  let s := if c.pageTimerFires t then pageTimerCallback c s else s
  let s := if c.keyTimerFires t then keyTimerCallback s else s
  let s := if c.deviceTimerFires t then devTimerCallback c s else s
  devUpHandler c s

/-- Notifications emitted on the Key during one down / up cycle. -/
def keyCycleNotifs (c : HoldConfig) (t : Nat) : List Notif :=
  (pressCycle c t).keyNotifs

/-- C2: at every (index, page) pair whose resolved hold duration is not 0 (hold
not disabled at the relevant scope), releasing before the resolved hold duration
elapses emits exactly one 'click' and no 'held' on the key, and releasing after
it has elapsed emits exactly one 'held' and no 'click'. -/
theorem C2_click_held_exclusive (c : HoldConfig) (t : Nat)
    (h : 0 < c.resolvedKeyHoldTime) :
    (t < c.resolvedKeyHoldTime →
      (keyCycleNotifs c t).count Notif.click = 1 ∧
      (keyCycleNotifs c t).count Notif.held = 0) ∧
    (c.resolvedKeyHoldTime ≤ t →
      (keyCycleNotifs c t).count Notif.held = 1 ∧
      (keyCycleNotifs c t).count Notif.click = 0) := by
  obtain ⟨D, P, K⟩ := c
  rcases K with _ | k <;> rcases P with _ | p
  · simp only [HoldConfig.resolvedKeyHoldTime, Option.getD_none] at h
    refine ⟨fun ht => ?_, fun ht => ?_⟩
    · simp only [HoldConfig.resolvedKeyHoldTime, Option.getD_none] at ht
      simp [keyCycleNotifs, pressCycle, HoldConfig.pageTimerFires,
        HoldConfig.keyTimerFires, HoldConfig.deviceTimerFires, pageTimerCallback,
        keyTimerCallback, devTimerCallback, devUpHandler, pageUpListener,
        keyUpListener, keyHoldListener, pageHoldListener, h, Nat.not_le.mpr ht]
    · simp only [HoldConfig.resolvedKeyHoldTime, Option.getD_none] at ht
      simp [keyCycleNotifs, pressCycle, HoldConfig.pageTimerFires,
        HoldConfig.keyTimerFires, HoldConfig.deviceTimerFires, pageTimerCallback,
        keyTimerCallback, devTimerCallback, devUpHandler, pageUpListener,
        keyUpListener, keyHoldListener, pageHoldListener, h, ht]
  · simp only [HoldConfig.resolvedKeyHoldTime, Option.getD_some,
      Option.getD_none] at h
    refine ⟨fun ht => ?_, fun ht => ?_⟩
    · simp only [HoldConfig.resolvedKeyHoldTime, Option.getD_some,
        Option.getD_none] at ht
      by_cases hD1 : 0 < D <;> by_cases hD2 : D ≤ t <;>
        simp [keyCycleNotifs, pressCycle, HoldConfig.pageTimerFires,
          HoldConfig.keyTimerFires, HoldConfig.deviceTimerFires, pageTimerCallback,
          keyTimerCallback, devTimerCallback, devUpHandler, pageUpListener,
          keyUpListener, keyHoldListener, pageHoldListener, h, Nat.not_le.mpr ht,
          hD1, hD2]
    · simp only [HoldConfig.resolvedKeyHoldTime, Option.getD_some,
        Option.getD_none] at ht
      by_cases hD1 : 0 < D <;> by_cases hD2 : D ≤ t <;>
        simp [keyCycleNotifs, pressCycle, HoldConfig.pageTimerFires,
          HoldConfig.keyTimerFires, HoldConfig.deviceTimerFires, pageTimerCallback,
          keyTimerCallback, devTimerCallback, devUpHandler, pageUpListener,
          keyUpListener, keyHoldListener, pageHoldListener, h, ht, hD1, hD2]
  · simp only [HoldConfig.resolvedKeyHoldTime, Option.getD_some] at h
    refine ⟨fun ht => ?_, fun ht => ?_⟩
    · simp only [HoldConfig.resolvedKeyHoldTime, Option.getD_some] at ht
      by_cases hD1 : 0 < D <;> by_cases hD2 : D ≤ t <;>
        simp [keyCycleNotifs, pressCycle, HoldConfig.pageTimerFires,
          HoldConfig.keyTimerFires, HoldConfig.deviceTimerFires, pageTimerCallback,
          keyTimerCallback, devTimerCallback, devUpHandler, pageUpListener,
          keyUpListener, keyHoldListener, pageHoldListener, h, Nat.not_le.mpr ht,
          hD1, hD2]
    · simp only [HoldConfig.resolvedKeyHoldTime, Option.getD_some] at ht
      by_cases hD1 : 0 < D <;> by_cases hD2 : D ≤ t <;>
        simp [keyCycleNotifs, pressCycle, HoldConfig.pageTimerFires,
          HoldConfig.keyTimerFires, HoldConfig.deviceTimerFires, pageTimerCallback,
          keyTimerCallback, devTimerCallback, devUpHandler, pageUpListener,
          keyUpListener, keyHoldListener, pageHoldListener, h, ht, hD1, hD2]
  · simp only [HoldConfig.resolvedKeyHoldTime, Option.getD_some] at h
    refine ⟨fun ht => ?_, fun ht => ?_⟩
    · simp only [HoldConfig.resolvedKeyHoldTime, Option.getD_some] at ht
      by_cases hD1 : 0 < D <;> by_cases hD2 : D ≤ t <;>
        by_cases hp1 : 0 < p <;> by_cases hp2 : p ≤ t <;>
        simp [keyCycleNotifs, pressCycle, HoldConfig.pageTimerFires,
          HoldConfig.keyTimerFires, HoldConfig.deviceTimerFires, pageTimerCallback,
          keyTimerCallback, devTimerCallback, devUpHandler, pageUpListener,
          keyUpListener, keyHoldListener, pageHoldListener, h, Nat.not_le.mpr ht,
          hD1, hD2, hp1, hp2]
    · simp only [HoldConfig.resolvedKeyHoldTime, Option.getD_some] at ht
      by_cases hD1 : 0 < D <;> by_cases hD2 : D ≤ t <;>
        by_cases hp1 : 0 < p <;> by_cases hp2 : p ≤ t <;>
        simp [keyCycleNotifs, pressCycle, HoldConfig.pageTimerFires,
          HoldConfig.keyTimerFires, HoldConfig.deviceTimerFires, pageTimerCallback,
          keyTimerCallback, devTimerCallback, devUpHandler, pageUpListener,
          keyUpListener, keyHoldListener, pageHoldListener, h, ht, hD1, hD2,
          hp1, hp2]

/-- C2 witness: with the default device hold time 500 and no overrides, a
release at t = 100 emits exactly one click and no held. -/
theorem C2_click_held_exclusive_witness :
    (keyCycleNotifs ⟨500, none, none⟩ 100).count Notif.click = 1 := by
  have h := (C2_click_held_exclusive ⟨500, none, none⟩ 100 (by decide)).1 (by decide)
  exact h.1

/-- C3: a key whose own hold duration is explicitly 0, on a page with no hold
override, never emits a hold or held notification during a press/release cycle,
whatever the device-level default hold duration and however long the key is held
down: 0 disables hold at the key scope and blocks propagation from coarser
scopes. -/
theorem C3_zero_hold_disables (D t : Nat) :
    (keyCycleNotifs ⟨D, none, some 0⟩ t).count Notif.hold = 0 ∧
    (keyCycleNotifs ⟨D, none, some 0⟩ t).count Notif.held = 0 := by
  simp [keyCycleNotifs, pressCycle, HoldConfig.pageTimerFires,
    HoldConfig.keyTimerFires, HoldConfig.deviceTimerFires, pageTimerCallback,
    keyTimerCallback, devTimerCallback, devUpHandler, pageUpListener,
    keyUpListener, keyHoldListener, pageHoldListener]
  by_cases hD1 : 0 < D <;> by_cases hD2 : D ≤ t <;> simp [hD1, hD2]

/-! ## Key per-pair interaction invariant (src/lib/key.js lines 215-324) -/

/-- Per-(index, page) interaction state kept by a Key: membership of the pair in
`_downStates` and `_holdStates`, and whether the pair's own hold timeout is
armed in `_holdTimeoutIds`. -/
structure KeyPairState where
  downed : Bool
  held : Bool
  holdTimerArmed : Bool
deriving DecidableEq, Repr

/-- Events that can touch one (index, page) pair of a Key: a down or up
transition delivered for the pair, the pair's own hold timer firing, a 'hold'
propagated onto the Key from a Page- or StreamDeck-level hold timer, and a
detach of the pair. -/
inductive KeyEvent where
  | down
  | up
  | holdTimerFire
  | propagatedHold
  | detach
deriving DecidableEq, Repr

/-- Step function: translation of the Key's 'down' (key.js 235-281), 'up'
(295-324), 'hold' (283-293) and 'detach' (215-233) listeners restricted to one
(index, page) pair, parameterized by the Key's HOLD_TIME option. The down
listener cancels stale timers, records the pair downed, clears held, and arms
the hold timer only when HOLD_TIME is a number greater than 0. The hold-timer
callback disarms itself and marks the pair held (a cleared timeout never fires,
so the event is a no-op when the timer is not armed). A propagated hold marks
the pair held unless HOLD_TIME is a number. Up and detach clear all pair
state. -/
def keyPairStep (keyHoldTime : Option Nat) (s : KeyPairState) :
    KeyEvent → KeyPairState
  | .down =>
    { downed := true, held := false,
      holdTimerArmed := match keyHoldTime with
        | some h => decide (0 < h)
        | none => false }
  | .up => { downed := false, held := false, holdTimerArmed := false }
  | .holdTimerFire =>
    if s.holdTimerArmed then { s with holdTimerArmed := false, held := true } else s
  | .propagatedHold =>
    if keyHoldTime.isSome then s else { s with held := true }
  | .detach => { downed := false, held := false, holdTimerArmed := false }

/-- Fold of keyPairStep over a list of events. -/
def keyPairRun (keyHoldTime : Option Nat) (s : KeyPairState)
    (es : List KeyEvent) : KeyPairState :=
  es.foldl (keyPairStep keyHoldTime) s

/-- Initial pair state: not downed, not held, no timer armed. -/
def initKeyPair : KeyPairState :=
  { downed := false, held := false, holdTimerArmed := false }

/-- Guard on a trace: every propagated hold is delivered while the pair is
downed. A Page- or StreamDeck-level hold timer that outlives a detach of the
pair (those timers are not cancelled by detachKey) violates this guard. -/
def holdSafeTrace (keyHoldTime : Option Nat) : KeyPairState → List KeyEvent → Bool
  | _, [] => true
  | s, e :: es =>
    (decide (e ≠ KeyEvent.propagatedHold) || s.downed) &&
      holdSafeTrace keyHoldTime (keyPairStep keyHoldTime s e) es

theorem keyPairStep_inv (kh : Option Nat) (e : KeyEvent) (dn hl ar : Bool)
    (h1 : hl = true → dn = true) (h2 : ar = true → dn = true)
    (hg : e = KeyEvent.propagatedHold → dn = true) :
    ((keyPairStep kh ⟨dn, hl, ar⟩ e).held = true →
      (keyPairStep kh ⟨dn, hl, ar⟩ e).downed = true) ∧
    ((keyPairStep kh ⟨dn, hl, ar⟩ e).holdTimerArmed = true →
      (keyPairStep kh ⟨dn, hl, ar⟩ e).downed = true) := by
  cases e with
  | down => exact ⟨fun _ => rfl, fun _ => rfl⟩
  | up => exact ⟨fun hc => (nomatch hc), fun hc => (nomatch hc)⟩
  | detach => exact ⟨fun hc => (nomatch hc), fun hc => (nomatch hc)⟩
  | holdTimerFire =>
    cases ar with
    | false => exact ⟨h1, h2⟩
    | true => exact ⟨fun _ => h2 rfl, fun _ => h2 rfl⟩
  | propagatedHold =>
    have hdn : dn = true := hg rfl
    subst hdn
    by_cases hks : kh.isSome = true
    · constructor
      · intro _
        simp [keyPairStep, hks]
      · intro _
        simp [keyPairStep, hks]
    · constructor
      · intro _
        simp only [keyPairStep]
        rw [if_neg hks]
      · intro _
        simp only [keyPairStep]
        rw [if_neg hks]

theorem keyPair_inv (kh : Option Nat) :
    ∀ (es : List KeyEvent) (s : KeyPairState),
      (s.held = true → s.downed = true) →
      (s.holdTimerArmed = true → s.downed = true) →
      holdSafeTrace kh s es = true →
      ((keyPairRun kh s es).held = true → (keyPairRun kh s es).downed = true) := by
  intro es
  induction es with
  | nil =>
    intro s h1 _ _
    exact h1
  | cons e es ih =>
    intro s h1 h2 hsafe
    rw [holdSafeTrace, Bool.and_eq_true] at hsafe
    have hg : e = KeyEvent.propagatedHold → s.downed = true := by
      intro he
      subst he
      simpa using hsafe.1
    obtain ⟨dn, hl, ar⟩ := s
    have hstep := keyPairStep_inv kh e dn hl ar h1 h2 hg
    exact ih (keyPairStep kh ⟨dn, hl, ar⟩ e) hstep.1 hstep.2 hsafe.2

/-- C5 counterexample: for a Key with undefined HOLD_TIME, the realizable event
sequence down, detach, propagated hold (the StreamDeck's 500 ms default hold
timer armed by the down is not cancelled by Page.detachKey, and with Page and
Key HOLD_TIME undefined its firing propagates 'hold' into the Key's listener)
leaves the pair marked held while not marked downed, refuting the invariant as
universally quantified over down/up/hold-timer-fire/detach/propagated-hold
sequences. -/
theorem C5_counterexample :
    (keyPairRun none initKeyPair
      [KeyEvent.down, KeyEvent.detach, KeyEvent.propagatedHold]).held = true ∧
    (keyPairRun none initKeyPair
      [KeyEvent.down, KeyEvent.detach, KeyEvent.propagatedHold]).downed = false := by
  decide

/-- C5 amended: held implies downed holds for every event sequence in which each
propagated hold is delivered while the pair is downed (equivalently, in which no
Page- or StreamDeck-level hold timer fires for the pair after it has been
detached); a propagated hold arriving after a detach can leave held set without
downed. -/
theorem C5_held_implies_downed (keyHoldTime : Option Nat) (es : List KeyEvent)
    (hsafe : holdSafeTrace keyHoldTime initKeyPair es = true) :
    (keyPairRun keyHoldTime initKeyPair es).held = true →
    (keyPairRun keyHoldTime initKeyPair es).downed = true := by
  exact keyPair_inv keyHoldTime es initKeyPair (by intro h; cases h)
    (by intro h; cases h) hsafe

/-- C5 witness: the safe trace down, own-hold-timer-fire, for a key with
HOLD_TIME 800, reaches a held state that is also downed. -/
theorem C5_held_implies_downed_witness :
    (keyPairRun (some 800) initKeyPair
      [KeyEvent.down, KeyEvent.holdTimerFire]).downed = true := by
  exact C5_held_implies_downed (some 800)
    [KeyEvent.down, KeyEvent.holdTimerFire] (by decide) (by decide)

end SDUI
